import Mathlib

/-!
Verification of the autofulfill5000 shipping-eligibility engine.

Shallow embedding of `src/weather.py`, `src/shopify_weather.py` and
`src/tropica_po_recommendation.py`:
* calendar timestamps become a day number (an integer, with day 0 a Monday,
  so `day % 7` is Python's `weekday()`) plus an hour-of-day;
* hourly forecast samples become `(date, hour, temperature)` records with
  rational temperatures;
* the network collaborators (geocoder, forecast API, order feed) become
  `Option`-valued inputs or function parameters;
* Python dicts that may lack a key (`extra_cold` in the weather-unavailable
  branch) become `Option` fields.
-/

/-- A point in time as the engine sees it: an absolute day number and an
hour of day.  Day 0 is chosen to be a Monday so that `day % 7` coincides
with Python's `datetime.weekday()` (Monday = 0). -/
structure Now where
  day : ℤ
  hour : ℕ
deriving DecidableEq

/-- Python's `today.weekday()`: Monday = 0, ... Sunday = 6. -/
def weekday (d : ℤ) : ℤ := d % 7

/-- `days_until_wednesday` from `analyze_shipping_conditions`
(weather.py lines 58/62-63): `(2 - today.weekday()) % 7`, rolled forward
by 7 when the result is 0 and the hour is at least 17. -/
def days_until_wednesday (tm : Now) : ℤ :=
  let d := (2 - weekday tm.day) % 7
  if d = 0 ∧ 17 ≤ tm.hour then 7 else d

/-- `days_until_thursday` from `analyze_shipping_conditions`
(weather.py lines 59/64-65): `(3 - today.weekday()) % 7`, rolled forward
by 7 when the result is 0 and the hour is at least 17. -/
def days_until_thursday (tm : Now) : ℤ :=
  let d := (3 - weekday tm.day) % 7
  if d = 0 ∧ 17 ≤ tm.hour then 7 else d

/-- The concrete calendar date resolved for the Wednesday candidate
(weather.py line 67). -/
def wednesday_date_of (tm : Now) : ℤ := tm.day + days_until_wednesday tm

/-- The concrete calendar date resolved for the Thursday candidate
(weather.py line 68). -/
def thursday_date_of (tm : Now) : ℤ := tm.day + days_until_thursday tm

/-- End of the default forecast window requested by `get_weather_forecast`
(weather.py lines 23-28): `today + (7 - today.weekday() + 4)` days. -/
def default_forecast_end (tm : Now) : ℤ := tm.day + (7 - weekday tm.day + 4)

/-- One hourly forecast sample: the calendar date (as a day number), the
hour of day parsed from the timestamp, and the temperature in degrees C. -/
structure Sample where
  date : ℤ
  hour : ℕ
  temp : ℚ
deriving DecidableEq

/-- The decision dict produced by `analyze_shipping_conditions` for one
destination.  `extra_cold := none` models a dict that lacks the
`extra_cold` key (the weather-unavailable branch of weather.py does not
set it); likewise for the two resolved dates in the geocoding-failure
branch. -/
structure Decision where
  can_ship : Bool
  wednesday_delivery : Bool
  thursday_delivery : Bool
  reason : String
  wed_avg_temp : Option ℚ
  thu_avg_temp : Option ℚ
  city : String
  province : String
  extra_cold : Option Bool
  wednesday_date : Option ℤ
  thursday_date : Option ℤ
deriving DecidableEq

/-- The loop of weather.py lines 94-101: a single pass over the hourly
samples appending each sample's temperature to the Wednesday list when its
date equals the Wednesday date and its hour is in [10, 17], and (`elif`)
to the Thursday list when its date equals the Thursday date and its hour
is in [10, 17]. -/
def collect_business_hour_temps (w t : ℤ) : List Sample → List ℚ × List ℚ
  | [] => ([], [])
  | s :: rest =>
    let r := collect_business_hour_temps w t rest
    if s.date = w ∧ 10 ≤ s.hour ∧ s.hour ≤ 17 then (s.temp :: r.1, r.2)
    else if s.date = t ∧ 10 ≤ s.hour ∧ s.hour ≤ 17 then (r.1, s.temp :: r.2)
    else r

/-- Specification-side description of the per-day sample subset: the
temperatures of exactly those samples whose date matches and whose hour
lies in the inclusive business-hour window [10, 17]. -/
def business_hour_temps (ss : List Sample) (d : ℤ) : List ℚ :=
  (ss.filter fun s => decide (s.date = d ∧ 10 ≤ s.hour ∧ s.hour ≤ 17)).map Sample.temp

/-- The test `x is not None and 0 >= x >= -2` applied to an optional mean
temperature (weather.py lines 122 and 124). -/
def temp_in_cold_band : Option ℚ → Bool
  | none => false
  | some a => decide (a ≤ 0 ∧ (-2 : ℚ) ≤ a)

/-- The two sequential `if` statements of weather.py lines 121-125 that
set `extra_cold`. -/
def extra_cold_flag (wedDel thuDel : Bool) (wedAvg thuAvg : Option ℚ) : Bool :=
  let e1 := if wedDel && temp_in_cold_band wedAvg then true else false
  if thuDel && temp_in_cold_band thuAvg then true else e1

/-- `analyze_shipping_conditions` (weather.py lines 40-150).  The geocoder
result and the forecast fetch are passed in as `Option` values; `none`
selects the corresponding failure branch of the Python code. -/
def analyze_shipping_conditions (geo : Option (ℚ × ℚ)) (forecast : Option (List Sample))
    (tm : Now) (city province : String) : Decision :=
  match geo with
  | none =>
      { can_ship := false, wednesday_delivery := false, thursday_delivery := false,
        reason := "Location not found", wed_avg_temp := none, thu_avg_temp := none,
        city := city, province := province, extra_cold := some false,
        wednesday_date := none, thursday_date := none }
  | some _ =>
    let wedDate := wednesday_date_of tm
    let thuDate := thursday_date_of tm
    match forecast with
    | none =>
        { can_ship := false, wednesday_delivery := false, thursday_delivery := false,
          reason := "Weather data unavailable", wed_avg_temp := none, thu_avg_temp := none,
          city := city, province := province, extra_cold := none,
          wednesday_date := some wedDate, thursday_date := some thuDate }
    | some samples =>
      let temps := collect_business_hour_temps wedDate thuDate samples
      let wedTemps := temps.1
      let thuTemps := temps.2
      let wedAvg : Option ℚ :=
        if wedTemps = [] then none else some (wedTemps.sum / (wedTemps.length : ℚ))
      let wedDel : Bool :=
        if wedTemps = [] then false
        else decide ((-2 : ℚ) ≤ wedTemps.sum / (wedTemps.length : ℚ))
      let thuAvg : Option ℚ :=
        if thuTemps = [] then none else some (thuTemps.sum / (thuTemps.length : ℚ))
      let thuDel : Bool :=
        if thuTemps = [] then false
        else decide ((-2 : ℚ) ≤ thuTemps.sum / (thuTemps.length : ℚ))
      let canShip := wedDel || thuDel
      let ec := extra_cold_flag wedDel thuDel wedAvg thuAvg
      let reason0 : String :=
        if !canShip then "Temperature too low on both Wednesday and Thursday"
        else if wedDel && !thuDel then "Delivery possible on Wednesday only"
        else if thuDel && !wedDel then "Delivery possible on Thursday only"
        else "Weather conditions acceptable for delivery"
      let reason := if ec then reason0 ++ " (Extra insulation required)" else reason0
      { can_ship := canShip, wednesday_delivery := wedDel, thursday_delivery := thuDel,
        reason := reason, wed_avg_temp := wedAvg, thu_avg_temp := thuAvg,
        city := city, province := province, extra_cold := some ec,
        wednesday_date := some wedDate, thursday_date := some thuDate }

/-- `shipping_day` as set by `process_orders_csv` (weather.py line 251):
Wednesday if deliverable on Wednesday, else Thursday if deliverable on
Thursday, else None. -/
def shipping_day_of (d : Decision) : String :=
  if d.wednesday_delivery then "Wednesday"
  else if d.thursday_delivery then "Thursday" else "None"

/-- The mean temperature of the chosen delivery day, as selected by
`generate_shipping_report` (weather.py lines 332-336). -/
def chosen_day_mean (d : Decision) : Option ℚ :=
  if d.wednesday_delivery then d.wed_avg_temp
  else if d.thursday_delivery then d.thu_avg_temp else none

/-- The test `x is not None and x < 8.0` applied to an optional mean
temperature (weather.py lines 315 and 317). -/
def below_heatpack_threshold : Option ℚ → Bool
  | none => false
  | some a => decide (a < 8)

/-- The heatpack column computed by `generate_shipping_report`
(weather.py lines 314-318): an `if`/`elif` chain over the two days. -/
def needs_heatpack (d : Decision) : String :=
  if d.wednesday_delivery && below_heatpack_threshold d.wed_avg_temp then "Y"
  else if d.thursday_delivery && below_heatpack_threshold d.thu_avg_temp then "Y"
  else "N"

/-- Item names are modelled as lists of characters; lowering maps
Python's `str.lower` character-wise (the item names in scope are ASCII). -/
def lower_name (name : List Char) : List Char := name.map Char.toLower

/-- Python's `kw in s` substring test, on an already-lowered name. -/
def contains_kw (kw : String) (n : List Char) : Bool := decide (kw.toList <:+: n)

/-- The `is_shrimp_or_potted` expression of `process_orders_csv`
(weather.py lines 185-192). -/
def is_shrimp_or_potted (name : List Char) : Bool :=
  let n := lower_name name
  (contains_kw "shrimp" n && !contains_kw "shrimpsafe" n) ||
    contains_kw "extreme blue bolt" n || contains_kw "red pinto galaxy" n ||
    contains_kw "pack" n || contains_kw "potted" n

/-- `categorize_line_item` (shopify_weather.py lines 191-197). -/
def categorize_line_item (name : List Char) : String :=
  let n := lower_name name
  if contains_kw "potted" n || contains_kw "shrimp" n then "potted_shrimp" else "other"

/-- Order-id normalisation: drop a leading `#` (weather.py lines 169-171). -/
def strip_hash (s : String) : String :=
  if s.startsWith "#" then s.drop 1 else s

/-- One raw CSV row as seen by the second pass of `process_orders_csv`:
the `Name`, `Shipping City`, `Shipping Province` and `Shipping Name`
columns. -/
structure WRow where
  name : String
  city : String
  province : String
  shipping_name : String
deriving DecidableEq

/-- One entry of the `order_quantities` dict built by the first pass of
`process_orders_csv` (weather.py lines 194-198). -/
structure ItemRec where
  quantity : ℤ
  item_name : List Char
  is_shrimp_or_potted : Bool

/-- The `f"{quantity} x {item_name}"` formatting of weather.py line 230. -/
def item_str (i : ItemRec) : String :=
  toString i.quantity ++ " x " ++ String.mk i.item_name

/-- The shipping-decision record appended by `process_orders_csv`: the
engine decision plus order identity, packing lists and shipping day. -/
structure FullDecision where
  order_id : String
  customer_name : String
  decision : Decision
  packing_list : String
  shrimp_potted_items : String
  other_items : String
  shipping_day : String

/-- The combined packing-list string of weather.py lines 236-242. -/
def packing_list_str (sp other : List String) : String :=
  let allItems :=
    (if sp = [] then [] else ["SHRIMP+POTTED: " ++ String.intercalate ", " sp]) ++
      (if other = [] then [] else ["OTHER ITEMS: " ++ String.intercalate ", " other])
  (String.intercalate " | " allItems).trim

/-- The dict literal of weather.py lines 269-287: the decision appended
for a row whose shipping city or province is missing. -/
def missing_location_decision (tm : Now) (city province : String) : Decision :=
  { can_ship := false, wednesday_delivery := false, thursday_delivery := false,
    reason := "Missing location data", wed_avg_temp := none, thu_avg_temp := none,
    city := city, province := province, extra_cold := some false,
    wednesday_date := some (wednesday_date_of tm),
    thursday_date := some (thursday_date_of tm) }

/-- The full record appended in the missing-location branch of
`process_orders_csv` (weather.py lines 255-288). -/
def missing_full_record (tm : Now) (oq : String → List ItemRec) (row : WRow) : FullDecision :=
  let oid := strip_hash row.name
  let items := oq oid
  let spList := (items.filter fun i => i.is_shrimp_or_potted).map item_str
  let otherList := (items.filter fun i => !i.is_shrimp_or_potted).map item_str
  { order_id := oid, customer_name := row.shipping_name,
    decision := missing_location_decision tm row.city row.province,
    packing_list := packing_list_str spList otherList,
    shrimp_potted_items := if spList = [] then "" else String.intercalate ", " spList,
    other_items := if otherList = [] then "" else String.intercalate ", " otherList,
    shipping_day := "None" }

/-- The second pass of `process_orders_csv` (weather.py lines 207-288).
`fn` stands for the call to `analyze_shipping_conditions` (a network
collaborator), `oq` for the `order_quantities` dict of the first pass
(absent ids map to `[]`), and the second list argument is the
`processed_order_ids` set. -/
def weather_second_pass (fn : String → String → Decision) (tm : Now)
    (oq : String → List ItemRec) : List WRow → List String → List FullDecision
  | [], _ => []
  | row :: rest, processed =>
    let oid := strip_hash row.name
    if oid ∈ processed then weather_second_pass fn tm oq rest processed
    else
      let items := oq oid
      let spList := (items.filter fun i => i.is_shrimp_or_potted).map item_str
      let otherList := (items.filter fun i => !i.is_shrimp_or_potted).map item_str
      if ¬ row.city.isEmpty ∧ ¬ row.province.isEmpty then
        let d := fn row.city row.province
        { order_id := oid, customer_name := row.shipping_name, decision := d,
          packing_list := packing_list_str spList otherList,
          shrimp_potted_items := if spList = [] then "" else String.intercalate ", " spList,
          other_items := if otherList = [] then "" else String.intercalate ", " otherList,
          shipping_day := shipping_day_of d } ::
          weather_second_pass fn tm oq rest (oid :: processed)
      else
        missing_full_record tm oq row :: weather_second_pass fn tm oq rest (oid :: processed)

/-- The record appended by `process_orders_csv_fallback`
(shopify_weather.py lines 266-283). -/
structure Dec2 where
  order_id : String
  customer_name : String
  decision : Decision
  potted_shrimp_items : String
  other_items : String
  all_items : String

/-- The second pass of `process_orders_csv_fallback` (shopify_weather.py
lines 250-285).  `cat` stands for the `order_items_by_category` dict of
the first pass (`none` when the id is absent).  A row with a missing city
or province is skipped without touching `processed_order_ids`. -/
def fallback_second_pass (fn : String → String → Decision)
    (cat : String → Option (List String × List String)) :
    List WRow → List String → List Dec2
  | [], _ => []
  | row :: rest, processed =>
    let oid := strip_hash row.name
    if oid ∈ processed then fallback_second_pass fn cat rest processed
    else if ¬ row.city.isEmpty ∧ ¬ row.province.isEmpty then
      let d := fn row.city row.province
      let r2 : Dec2 :=
        match cat oid with
        | some (ps, ot) =>
            { order_id := oid, customer_name := row.shipping_name, decision := d,
              potted_shrimp_items := String.intercalate ", " ps,
              other_items := String.intercalate ", " ot,
              all_items := String.intercalate ", " (ps ++ ot) }
        | none =>
            { order_id := oid, customer_name := row.shipping_name, decision := d,
              potted_shrimp_items := "", other_items := "", all_items := "" }
      r2 :: fallback_second_pass fn cat rest (oid :: processed)
    else fallback_second_pass fn cat rest processed

/-- `process_shopify_orders` (shopify_weather.py lines 297-363): after
fetching the live feed it returns the CSV fallback result when the feed
is empty, and — by the unconditional `return` on line 311 — the CSV
fallback result also when it is not; the per-order loop that follows the
`return` never executes and therefore does not appear in the model. -/
def process_shopify_orders {α : Type} (shopify_orders : List α)
    (fn : String → String → Decision)
    (cat : String → Option (List String × List String)) (rows : List WRow) : List Dec2 :=
  if shopify_orders.isEmpty then fallback_second_pass fn cat rows []
  else fallback_second_pass fn cat rows []

/-- One purchase-order recommendation row built by
`generate_purchase_order_recommendations` (tropica_po_recommendation.py
lines 286-310). -/
structure Recommendation where
  item : String
  sales_last_2_weeks : ℤ
  current_inventory : ℤ
  incoming_inventory : ℤ
  committed_quantity : ℤ
  buffer_used : String
  recommended_order : ℤ

/-- Python's built-in `round` on the values in scope: round half to even. -/
def round_half_to_even (x : ℚ) : ℤ :=
  let fl := ⌊x⌋
  let frac := x - fl
  if frac < 1 / 2 then fl
  else if 1 / 2 < frac then fl + 1
  else if fl % 2 = 0 then fl else fl + 1

/-- `calculate_recommended_quantity` (tropica_po_recommendation.py lines
228-249).  The Python function takes exactly these three arguments; the
float literals 1.2 and 1.15 are modelled by the corresponding rationals. -/
def calculate_recommended_quantity (sales_quantity current_inventory incoming_inventory : ℤ) : ℤ :=
  let buffer : ℚ := if 10 ≤ sales_quantity then 6 / 5 else 23 / 20
  let expected_sales_with_buffer := (sales_quantity : ℚ) * buffer
  let total_available := current_inventory + incoming_inventory
  let needed : ℚ :=
    if total_available < 0 then |(total_available : ℚ)| + expected_sales_with_buffer
    else max 0 (expected_sales_with_buffer - (total_available : ℚ))
  round_half_to_even needed

/-- The recommendation record built for one product
(tropica_po_recommendation.py lines 287-310): the committed quantity is
stored in the record but is not passed to
`calculate_recommended_quantity` (lines 294-296). -/
def build_recommendation (title : String) (sales cur inc committed : ℤ) : Recommendation :=
  { item := title, sales_last_2_weeks := sales, current_inventory := cur,
    incoming_inventory := inc, committed_quantity := committed,
    buffer_used := if 10 ≤ sales then "20%" else "15%",
    recommended_order := calculate_recommended_quantity sales cur inc }

/-- A concrete stand-in for the `analyze_shipping_conditions` collaborator,
used only to instantiate universally quantified statements. -/
def dummy_fn : String → String → Decision :=
  fun c p => analyze_shipping_conditions none none ⟨0, 0⟩ c p

/-- The two resolved candidate dates always differ: the two underlying
day offsets are congruent to distinct residues modulo 7 and both lie in
[0, 7]. -/
lemma wednesday_date_ne_thursday_date (tm : Now) :
    wednesday_date_of tm ≠ thursday_date_of tm := by
  simp only [wednesday_date_of, thursday_date_of, days_until_wednesday,
    days_until_thursday, weekday]
  split_ifs <;> omega

lemma collect_business_hour_temps_fst (w t : ℤ) (ss : List Sample) :
    (collect_business_hour_temps w t ss).1 = business_hour_temps ss w := by
  induction ss with
  | nil => rfl
  | cons s rest ih =>
    simp only [collect_business_hour_temps, business_hour_temps, List.filter_cons]
    simp only [business_hour_temps] at ih
    by_cases h1 : s.date = w ∧ 10 ≤ s.hour ∧ s.hour ≤ 17
    · rw [if_pos h1, if_pos (decide_eq_true h1)]
      simp only [List.map_cons]
      exact congrArg (s.temp :: ·) ih
    · have hd : ¬ decide (s.date = w ∧ 10 ≤ s.hour ∧ s.hour ≤ 17) = true := by
        simpa using h1
      rw [if_neg h1, if_neg hd]
      by_cases h2 : s.date = t ∧ 10 ≤ s.hour ∧ s.hour ≤ 17
      · rw [if_pos h2]; exact ih
      · rw [if_neg h2]; exact ih

lemma collect_business_hour_temps_snd (w t : ℤ) (hwt : w ≠ t) (ss : List Sample) :
    (collect_business_hour_temps w t ss).2 = business_hour_temps ss t := by
  induction ss with
  | nil => rfl
  | cons s rest ih =>
    simp only [collect_business_hour_temps, business_hour_temps, List.filter_cons]
    simp only [business_hour_temps] at ih
    by_cases h1 : s.date = w ∧ 10 ≤ s.hour ∧ s.hour ≤ 17
    · have hnt : ¬ decide (s.date = t ∧ 10 ≤ s.hour ∧ s.hour ≤ 17) = true := by
        simp only [decide_eq_true_eq]
        rintro ⟨hd, -⟩
        exact hwt (h1.1 ▸ hd)
      rw [if_pos h1, if_neg hnt]
      exact ih
    · rw [if_neg h1]
      by_cases h2 : s.date = t ∧ 10 ≤ s.hour ∧ s.hour ≤ 17
      · rw [if_pos h2, if_pos (decide_eq_true h2)]
        simp only [List.map_cons]
        exact congrArg (s.temp :: ·) ih
      · have hd : ¬ decide (s.date = t ∧ 10 ≤ s.hour ∧ s.hour ≤ 17) = true := by
          simpa using h2
        rw [if_neg h2, if_neg hd]
        exact ih

lemma extra_cold_flag_eq_or (a b : Bool) (x y : Option ℚ) :
    extra_cold_flag a b x y =
      (a && temp_in_cold_band x || b && temp_in_cold_band y) := by
  unfold extra_cold_flag
  cases h1 : a && temp_in_cold_band x <;> cases h2 : b && temp_in_cold_band y <;> simp [h1, h2]

/-- C4: for every value of now (any weekday, any hour) the two candidate
delivery dates computed by the date-resolution rule both lie in the
closed interval [today, today + 7], and the Wednesday candidate never
equals the Thursday candidate. -/
theorem candidate_dates_in_week_and_distinct (tm : Now) :
    tm.day ≤ wednesday_date_of tm ∧ wednesday_date_of tm ≤ tm.day + 7 ∧
      tm.day ≤ thursday_date_of tm ∧ thursday_date_of tm ≤ tm.day + 7 ∧
      wednesday_date_of tm ≠ thursday_date_of tm := by
  refine ⟨?_, ?_, ?_, ?_, wednesday_date_ne_thursday_date tm⟩ <;>
    · simp only [wednesday_date_of, thursday_date_of, days_until_wednesday,
        days_until_thursday, weekday]
      split_ifs <;> omega

/-- C5: the end date of the default forecast window requested by
`get_weather_forecast` (today + (7 - weekday + 4) days) is at least as
late as each of the two candidate delivery dates, including the
roll-forward cases. -/
theorem default_window_covers_candidates (tm : Now) :
    wednesday_date_of tm ≤ default_forecast_end tm ∧
      thursday_date_of tm ≤ default_forecast_end tm := by
  constructor <;>
    · simp only [wednesday_date_of, thursday_date_of, default_forecast_end,
        days_until_wednesday, days_until_thursday, weekday]
      split_ifs <;> omega

/-- C6: for every forecast series, the engine's per-day mean is the
arithmetic mean of exactly the samples whose date equals that candidate
date and whose hour is in [10, 17]; an empty matching subset yields an
absent mean and a false deliverability flag. -/
theorem per_day_mean_is_business_hour_mean (xy : ℚ × ℚ) (samples : List Sample)
    (tm : Now) (c p : String) :
    (analyze_shipping_conditions (some xy) (some samples) tm c p).wed_avg_temp =
      (if business_hour_temps samples (wednesday_date_of tm) = [] then none
       else some ((business_hour_temps samples (wednesday_date_of tm)).sum /
         ((business_hour_temps samples (wednesday_date_of tm)).length : ℚ))) ∧
    (analyze_shipping_conditions (some xy) (some samples) tm c p).thu_avg_temp =
      (if business_hour_temps samples (thursday_date_of tm) = [] then none
       else some ((business_hour_temps samples (thursday_date_of tm)).sum /
         ((business_hour_temps samples (thursday_date_of tm)).length : ℚ))) ∧
    (analyze_shipping_conditions (some xy) (some samples) tm c p).wednesday_delivery =
      (if business_hour_temps samples (wednesday_date_of tm) = [] then false
       else decide ((-2 : ℚ) ≤ (business_hour_temps samples (wednesday_date_of tm)).sum /
         ((business_hour_temps samples (wednesday_date_of tm)).length : ℚ))) ∧
    (analyze_shipping_conditions (some xy) (some samples) tm c p).thursday_delivery =
      (if business_hour_temps samples (thursday_date_of tm) = [] then false
       else decide ((-2 : ℚ) ≤ (business_hour_temps samples (thursday_date_of tm)).sum /
         ((business_hour_temps samples (thursday_date_of tm)).length : ℚ))) := by
  have hw := collect_business_hour_temps_fst (wednesday_date_of tm) (thursday_date_of tm) samples
  have ht := collect_business_hour_temps_snd (wednesday_date_of tm) (thursday_date_of tm)
    (wednesday_date_ne_thursday_date tm) samples
  refine ⟨?_, ?_, ?_, ?_⟩ <;> simp only [analyze_shipping_conditions, hw, ht]

/-- C7: in every decision record the engine produces — the
geocoding-failure branch, the weather-unavailable branch, the main branch,
and the missing-location record of `process_orders_csv` — `can_ship` is
true exactly when at least one of the two per-day deliverability booleans
is true. -/
theorem can_ship_iff_some_day_deliverable (g : Option (ℚ × ℚ)) (f : Option (List Sample))
    (tm : Now) (c p : String) :
    ((analyze_shipping_conditions g f tm c p).can_ship =
        ((analyze_shipping_conditions g f tm c p).wednesday_delivery ||
          (analyze_shipping_conditions g f tm c p).thursday_delivery)) ∧
      (missing_location_decision tm c p).can_ship =
        ((missing_location_decision tm c p).wednesday_delivery ||
          (missing_location_decision tm c p).thursday_delivery) := by
  refine ⟨?_, rfl⟩
  cases g with
  | none => rfl
  | some xy =>
    cases f with
    | none => rfl
    | some samples => rfl

/-- C1 (counterexample): an order deliverable on both days, chosen day
Wednesday with mean 5.0 (outside [-2, 0]), Thursday mean -1.0 (inside the
band): the code sets `extra_cold`, so the flag does not agree with the
chosen day's mean, and the non-chosen day does affect it. -/
theorem extra_cold_uses_nonchosen_day_cex :
    shipping_day_of (analyze_shipping_conditions (some (0, 0))
        (some [⟨2, 12, 5⟩, ⟨3, 12, -1⟩]) ⟨0, 0⟩ "Ottawa" "ON") = "Wednesday" ∧
      chosen_day_mean (analyze_shipping_conditions (some (0, 0))
        (some [⟨2, 12, 5⟩, ⟨3, 12, -1⟩]) ⟨0, 0⟩ "Ottawa" "ON") = some 5 ∧
      (analyze_shipping_conditions (some (0, 0))
        (some [⟨2, 12, 5⟩, ⟨3, 12, -1⟩]) ⟨0, 0⟩ "Ottawa" "ON").extra_cold = some true ∧
      ¬ ((5 : ℚ) ≤ 0 ∧ (-2 : ℚ) ≤ 5) := by
  have h : analyze_shipping_conditions (some (0, 0))
      (some [⟨2, 12, 5⟩, ⟨3, 12, -1⟩]) ⟨0, 0⟩ "Ottawa" "ON" =
      { can_ship := true, wednesday_delivery := true, thursday_delivery := true,
        reason := "Weather conditions acceptable for delivery (Extra insulation required)",
        wed_avg_temp := some 5, thu_avg_temp := some (-1), city := "Ottawa", province := "ON",
        extra_cold := some true, wednesday_date := some 2, thursday_date := some 3 } := by
    norm_num [analyze_shipping_conditions, wednesday_date_of, thursday_date_of,
      days_until_wednesday, days_until_thursday, weekday, collect_business_hour_temps,
      extra_cold_flag, temp_in_cold_band]
    rfl
  refine ⟨?_, ?_, ?_, by norm_num⟩ <;> rw [h] <;> rfl

/-- C1 (amended): whenever the decision record carries an `extra_cold`
value, that value is true exactly when some deliverable day's mean lies in
[-2, 0] — either day, not only the chosen one. -/
theorem extra_cold_iff_some_deliverable_day_in_band (g : Option (ℚ × ℚ))
    (f : Option (List Sample)) (tm : Now) (c p : String) (ex : Bool)
    (h : (analyze_shipping_conditions g f tm c p).extra_cold = some ex) :
    ex = ((analyze_shipping_conditions g f tm c p).wednesday_delivery &&
            temp_in_cold_band (analyze_shipping_conditions g f tm c p).wed_avg_temp ||
          (analyze_shipping_conditions g f tm c p).thursday_delivery &&
            temp_in_cold_band (analyze_shipping_conditions g f tm c p).thu_avg_temp) := by
  cases g with
  | none =>
    simp only [analyze_shipping_conditions, Option.some.injEq] at h
    subst h
    rfl
  | some xy =>
    cases f with
    | none =>
      simp only [analyze_shipping_conditions] at h
      exact Option.noConfusion h
    | some samples =>
      simp only [analyze_shipping_conditions, Option.some.injEq] at h
      subst h
      simp only [analyze_shipping_conditions]
      exact extra_cold_flag_eq_or _ _ _ _

/-- Witness for the amended C1 theorem at the geocoding-failure input. -/
theorem extra_cold_iff_witness :
    (false : Bool) =
      ((analyze_shipping_conditions none none ⟨0, 0⟩ "" "").wednesday_delivery &&
         temp_in_cold_band (analyze_shipping_conditions none none ⟨0, 0⟩ "" "").wed_avg_temp ||
       (analyze_shipping_conditions none none ⟨0, 0⟩ "" "").thursday_delivery &&
         temp_in_cold_band (analyze_shipping_conditions none none ⟨0, 0⟩ "" "").thu_avg_temp) :=
  extra_cold_iff_some_deliverable_day_in_band none none ⟨0, 0⟩ "" "" false (by decide)

/-- C2 (counterexample): chosen day Wednesday with mean 10.0 (not below
8.0), Thursday deliverable with mean 5.0: the `elif` in
`generate_shipping_report` sets the heatpack flag to "Y" from the
non-chosen Thursday data. -/
theorem heatpack_uses_nonchosen_day_cex :
    needs_heatpack (analyze_shipping_conditions (some (0, 0))
        (some [⟨2, 12, 10⟩, ⟨3, 12, 5⟩]) ⟨0, 0⟩ "Guelph" "ON") = "Y" ∧
      shipping_day_of (analyze_shipping_conditions (some (0, 0))
        (some [⟨2, 12, 10⟩, ⟨3, 12, 5⟩]) ⟨0, 0⟩ "Guelph" "ON") = "Wednesday" ∧
      chosen_day_mean (analyze_shipping_conditions (some (0, 0))
        (some [⟨2, 12, 10⟩, ⟨3, 12, 5⟩]) ⟨0, 0⟩ "Guelph" "ON") = some 10 ∧
      ¬ ((10 : ℚ) < 8) := by
  have h : analyze_shipping_conditions (some (0, 0))
      (some [⟨2, 12, 10⟩, ⟨3, 12, 5⟩]) ⟨0, 0⟩ "Guelph" "ON" =
      { can_ship := true, wednesday_delivery := true, thursday_delivery := true,
        reason := "Weather conditions acceptable for delivery",
        wed_avg_temp := some 10, thu_avg_temp := some 5, city := "Guelph", province := "ON",
        extra_cold := some false, wednesday_date := some 2, thursday_date := some 3 } := by
    norm_num [analyze_shipping_conditions, wednesday_date_of, thursday_date_of,
      days_until_wednesday, days_until_thursday, weekday, collect_business_hour_temps,
      extra_cold_flag, temp_in_cold_band]
  refine ⟨?_, ?_, ?_, by norm_num⟩ <;> rw [h]
  · norm_num [needs_heatpack, below_heatpack_threshold]
  · rfl
  · rfl

/-- C2 (amended): the heatpack flag is "Y" exactly when some deliverable
day's mean is below 8.0 — Wednesday checked first, then Thursday, not
only the chosen day — and it is "N" whenever no day is chosen. -/
theorem heatpack_iff_some_deliverable_day_below8 (d : Decision) :
    (needs_heatpack d =
      if d.wednesday_delivery && below_heatpack_threshold d.wed_avg_temp ||
          d.thursday_delivery && below_heatpack_threshold d.thu_avg_temp then "Y" else "N") ∧
    (shipping_day_of d = "None" → needs_heatpack d = "N") := by
  constructor
  · unfold needs_heatpack
    cases h1 : d.wednesday_delivery && below_heatpack_threshold d.wed_avg_temp <;>
      cases h2 : d.thursday_delivery && below_heatpack_threshold d.thu_avg_temp <;>
        simp [h1, h2]
  · intro hnone
    unfold shipping_day_of at hnone
    split_ifs at hnone with h1 h2
    · exact absurd hnone (by decide)
    · exact absurd hnone (by decide)
    · simp only [Bool.not_eq_true] at h1 h2
      simp [needs_heatpack, h1, h2]

/-- Witness for the amended C2 theorem at the geocoding-failure input. -/
theorem heatpack_iff_witness :
    needs_heatpack (analyze_shipping_conditions none none ⟨0, 0⟩ "" "") = "N" :=
  (heatpack_iff_some_deliverable_day_below8
    (analyze_shipping_conditions none none ⟨0, 0⟩ "" "")).2 (by decide)

lemma contains_shrimp_of_contains_shrimpsafe (n : List Char)
    (h : contains_kw "shrimpsafe" n = true) : contains_kw "shrimp" n = true := by
  simp only [contains_kw, decide_eq_true_eq] at h ⊢
  exact List.IsInfix.trans (by decide) h

/-- C3 (counterexample): `categorize_line_item` has no exclusion at all,
so "ShrimpSafe Net" is classified `potted_shrimp`, not `other`; and in
`process_orders_csv` the exclusion only cancels the "shrimp" keyword, so
"ShrimpSafe Pack" still counts as livestock/potted via "pack". -/
theorem shrimpsafe_forces_other_cex :
    categorize_line_item ("ShrimpSafe Net".toList) = "potted_shrimp" ∧
      is_shrimp_or_potted ("ShrimpSafe Pack".toList) = true ∧
      contains_kw "shrimpsafe" (lower_name ("ShrimpSafe Net".toList)) = true ∧
      contains_kw "shrimpsafe" (lower_name ("ShrimpSafe Pack".toList)) = true := by
  decide

/-- C3 (amended): for a name containing "shrimpsafe", the weather.py
classifier returns livestock/potted exactly when one of the remaining
keywords ("extreme blue bolt", "red pinto galaxy", "pack", "potted") is
present — the exclusion only cancels the "shrimp" keyword — while
`categorize_line_item` of shopify_weather.py ignores the exclusion
entirely and always returns `potted_shrimp` for such names. -/
theorem shrimpsafe_exclusion_scope (name : List Char)
    (h : contains_kw "shrimpsafe" (lower_name name) = true) :
    is_shrimp_or_potted name =
      (contains_kw "extreme blue bolt" (lower_name name) ||
        contains_kw "red pinto galaxy" (lower_name name) ||
        contains_kw "pack" (lower_name name) || contains_kw "potted" (lower_name name)) ∧
      categorize_line_item name = "potted_shrimp" := by
  have hs := contains_shrimp_of_contains_shrimpsafe _ h
  constructor
  · unfold is_shrimp_or_potted
    simp [h, hs]
  · unfold categorize_line_item
    simp [hs]

/-- Witness for the amended C3 theorem at the name "ShrimpSafe Net". -/
theorem shrimpsafe_exclusion_scope_witness :
    is_shrimp_or_potted ("ShrimpSafe Net".toList) =
      (contains_kw "extreme blue bolt" (lower_name ("ShrimpSafe Net".toList)) ||
        contains_kw "red pinto galaxy" (lower_name ("ShrimpSafe Net".toList)) ||
        contains_kw "pack" (lower_name ("ShrimpSafe Net".toList)) ||
        contains_kw "potted" (lower_name ("ShrimpSafe Net".toList))) ∧
      categorize_line_item ("ShrimpSafe Net".toList) = "potted_shrimp" :=
  shrimpsafe_exclusion_scope ("ShrimpSafe Net".toList) (by decide)

/-- C8 (counterexample): a row whose shipping province is empty makes
`process_orders_csv` (weather.py) emit a full decision with reason
"Missing location data" — the row is not skipped. -/
theorem missing_location_emits_decision_cex :
    (weather_second_pass dummy_fn ⟨0, 0⟩ (fun _ => []) [⟨"1002", "Toronto", "", "B"⟩] []).map
      (fun r => r.decision.reason) = ["Missing location data"] := by
  rfl

/-- C8 (amended): a raw row with a missing shipping city or province is
skipped (no decision, `processed_order_ids` untouched) by
`process_orders_csv_fallback` of shopify_weather.py, but
`process_orders_csv` of weather.py instead emits a can_ship=false
decision with reason "Missing location data" and marks the id processed;
both continue with the rest of the batch. -/
theorem missing_location_row_handling :
    (∀ (fn : String → String → Decision) (cat : String → Option (List String × List String))
        (row : WRow) (rest : List WRow) (processed : List String),
        strip_hash row.name ∉ processed →
        (row.city.isEmpty = true ∨ row.province.isEmpty = true) →
        fallback_second_pass fn cat (row :: rest) processed =
          fallback_second_pass fn cat rest processed) ∧
    (∀ (fn : String → String → Decision) (tm : Now) (oq : String → List ItemRec)
        (row : WRow) (rest : List WRow) (processed : List String),
        strip_hash row.name ∉ processed →
        (row.city.isEmpty = true ∨ row.province.isEmpty = true) →
        weather_second_pass fn tm oq (row :: rest) processed =
          missing_full_record tm oq row ::
            weather_second_pass fn tm oq rest (strip_hash row.name :: processed)) := by
  constructor
  · intro fn cat row rest processed h1 h2
    have hcond : ¬ (¬ row.city.isEmpty = true ∧ ¬ row.province.isEmpty = true) := by
      rcases h2 with h | h <;> simp [h]
    simp only [fallback_second_pass]
    rw [if_neg h1, if_neg hcond]
  · intro fn tm oq row rest processed h1 h2
    have hcond : ¬ (¬ row.city.isEmpty = true ∧ ¬ row.province.isEmpty = true) := by
      rcases h2 with h | h <;> simp [h]
    simp only [weather_second_pass]
    rw [if_neg h1, if_neg hcond]

/-- Witness for the amended C8 theorem at a concrete batch of one row
with an empty city. -/
theorem missing_location_row_handling_witness :
    fallback_second_pass dummy_fn (fun _ => none) [⟨"1001", "", "ON", "A"⟩] [] =
        fallback_second_pass dummy_fn (fun _ => none) [] [] ∧
      weather_second_pass dummy_fn ⟨0, 0⟩ (fun _ => []) [⟨"1001", "", "ON", "A"⟩] [] =
        missing_full_record ⟨0, 0⟩ (fun _ => []) ⟨"1001", "", "ON", "A"⟩ ::
          weather_second_pass dummy_fn ⟨0, 0⟩ (fun _ => []) [] [strip_hash "1001"] :=
  ⟨missing_location_row_handling.1 dummy_fn (fun _ => none) ⟨"1001", "", "ON", "A"⟩ [] []
      (by decide) (Or.inl (by decide)),
    missing_location_row_handling.2 dummy_fn ⟨0, 0⟩ (fun _ => []) ⟨"1001", "", "ON", "A"⟩ [] []
      (by decide) (Or.inl (by decide))⟩

/-- C9: the recommended purchase-order quantity is computed from sales,
current inventory and incoming inventory only — the committed (open-order)
quantity is stored in the record but never influences the recommendation,
so no two catalog states differing only in committed quantity can yield
different recommended quantities; at sales 10, stock 0, incoming 0 the
recommendation is 12 regardless of committed quantity. -/
theorem recommended_order_ignores_committed (title : String) (sales cur inc k k' : ℤ) :
    (build_recommendation title sales cur inc k).recommended_order =
      (build_recommendation title sales cur inc k').recommended_order ∧
    (build_recommendation title 10 0 0 k).recommended_order = 12 := by
  constructor
  · rfl
  · show calculate_recommended_quantity 10 0 0 = 12
    norm_num [calculate_recommended_quantity, round_half_to_even, max_def]

/-- C10: `process_shopify_orders` returns exactly the result of the CSV
fallback for every live order feed, empty or not; the unconditional
`return` makes the live-order processing loop unreachable. -/
theorem shopify_orders_always_csv_fallback (α : Type) (orders : List α)
    (fn : String → String → Decision) (cat : String → Option (List String × List String))
    (rows : List WRow) :
    process_shopify_orders orders fn cat rows = fallback_second_pass fn cat rows [] := by
  unfold process_shopify_orders
  split <;> rfl
